import Mathlib

/-!
# go-hello-service: a shallow embedding of `cmd/server/main.go`

The program is a thin layer over the Go standard library and gorilla/mux.  The
functions of `main.go` are translated one by one (`NewServer`, `setupRoutes`,
`loggingMiddleware`, `healthHandler`, `helloHandler`, `Start`, `Shutdown`, the two
halves of `main`, `getPort`).  What they call in the libraries is modelled
explicitly and kept apart from them:

* the clock, the log sink and the record of `http.Server.Shutdown` calls are an
  explicit `World` that every operation threads through;
* `encoding/json`, `os.Hostname` and `time.Duration.String` are parameters,
  gathered in `Env`;
* `http.ResponseWriter` follows `httptest.ResponseRecorder` (the first
  `WriteHeader` fixes the status code and the headers sent, later calls change
  nothing), with an optional write fault;
* the gorilla/mux router is modelled for routes with a literal path and a method
  matcher, which is all `setupRoutes` registers.
-/

namespace HelloService

/-! ## Go values -/

/-- Go `error` values: the sentinel `http.ErrServerClosed`, compared by identity in
`main`, and any other error, carrying its message. -/
inductive GoError where
  | ErrServerClosed
  | other (msg : String)
  deriving DecidableEq, Repr

/-- The `Error()` method. -/
def GoError.Error : GoError → String
  | .ErrServerClosed => "http: Server closed"
  | .other msg => msg

/-- An instant of `time.Time`, as a count of nanoseconds. -/
abbrev Time := Nat

/-- A `time.Duration`, in nanoseconds. -/
abbrev Duration := Int

/-- The constant `time.Second`. -/
def Second : Duration := 1000000000

def StatusOK : Nat := 200
def StatusMovedPermanently : Nat := 301
def StatusNotFound : Nat := 404
def StatusMethodNotAllowed : Nat := 405
def StatusInternalServerError : Nat := 500

/-- The struct type `HealthResponse` (main.go lines 21-25). -/
structure HealthResponse where
  Status : String
  Timestamp : Time
  Version : String
  deriving DecidableEq, Repr

/-- The struct type `HelloResponse` (main.go lines 27-31). -/
structure HelloResponse where
  Message : String
  Timestamp : Time
  Hostname : String
  deriving DecidableEq, Repr

/-! ## The environment -/

/-- The mutable surroundings of the program: `clock n` is what the `n`-th call of
`time.Now` returns and `ticks` counts the calls made so far; `log` is the standard
log sink, oldest line first; `shutdownCalls` records the timeout of the context of
every `http.Server.Shutdown` call. -/
structure World where
  clock : Nat → Time
  ticks : Nat
  log : List String
  shutdownCalls : List Duration

/-- The call `time.Now()`. -/
def timeNow (world : World) : Time × World :=
  (world.clock world.ticks, { world with ticks := world.ticks + 1 })

/-- The calls `log.Printf` and `log.Println`: one line is appended to the log sink. -/
def logPrintf (world : World) (line : String) : World :=
  { world with log := world.log ++ [line] }

/-- The library functions whose result the program only passes on:
`json.Marshal` and `json.Unmarshal` at the two response types, `os.Hostname()`,
and the rendering of a `time.Duration` by `%v`. -/
structure Env where
  marshalHealth : HealthResponse → Except GoError String
  unmarshalHealth : String → Option HealthResponse
  marshalHello : HelloResponse → Except GoError String
  unmarshalHello : String → Option HelloResponse
  Hostname : Except GoError String
  formatDuration : Duration → String

/-! ## net/http: requests and response writers -/

/-- The fields of `*http.Request` that the program or the router reads, and the
rest of what a client controls. -/
structure Request where
  Method : String
  Path : String
  RawQuery : String
  RequestURI : String
  RemoteAddr : String
  Header : List (String × String)
  Body : String
  deriving DecidableEq, Repr

/-- The method `http.Header.Set` on canonical keys: the key gets this single value. -/
def headerSet (h : List (String × String)) (k v : String) : List (String × String) :=
  (k, v) :: h.filter (fun e => e.1 != k)

/-- The method `http.Header.Del`. -/
def headerDel (h : List (String × String)) (k : String) : List (String × String) :=
  h.filter (fun e => e.1 != k)

/-- The method `http.Header.Get`. -/
def headerGet (h : List (String × String)) (k : String) : Option String :=
  (h.find? (fun e => e.1 == k)).map (fun e => e.2)

/-- A response writer after `httptest.ResponseRecorder`: `header` is the live map
returned by `Header()`, `Code` and `sentHeader` are the status code and the headers
fixed by the first `WriteHeader`, `Body` is what was written.  `writeErr`, when
set, is the error every `Write` returns (a writer that does not accept writes). -/
structure ResponseWriter where
  header : List (String × String)
  wroteHeader : Bool
  Code : Nat
  sentHeader : List (String × String)
  Body : String
  writeErr : Option GoError
  deriving DecidableEq, Repr

/-- The recorder returned by `httptest.NewRecorder()`. -/
def NewRecorder : ResponseWriter :=
  { header := [], wroteHeader := false, Code := 200, sentHeader := [], Body := "",
    writeErr := none }

/-- The call `w.Header().Set(k, v)`. -/
def ResponseWriter.SetHeader (w : ResponseWriter) (k v : String) : ResponseWriter :=
  { w with header := headerSet w.header k v }

/-- The call `w.WriteHeader(code)`: the first call fixes the status code and takes the
snapshot of the headers; a later call is ignored. -/
def ResponseWriter.WriteHeader (w : ResponseWriter) (code : Nat) : ResponseWriter :=
  if w.wroteHeader then w
  else { w with wroteHeader := true, Code := code, sentHeader := w.header }

/-- The call `w.Write(b)`: writes the header with status 200 if none was written yet, then
appends to the body, or returns the write fault. -/
def ResponseWriter.Write (w : ResponseWriter) (b : String) :
    ResponseWriter × Option GoError :=
  let w1 := w.WriteHeader StatusOK
  match w1.writeErr with
  | some e => (w1, some e)
  | none => ({ w1 with Body := w1.Body ++ b }, none)

/-- The call `json.NewEncoder(w).Encode(v)`: marshal `v`; on failure nothing is written and
the error is returned; otherwise the text and a newline go to `w` in one `Write`,
whose error is returned. -/
def Encode {α : Type} (marshal : α → Except GoError String) (w : ResponseWriter) (v : α) :
    ResponseWriter × Option GoError :=
  match marshal v with
  | .error e => (w, some e)
  | .ok s => w.Write (s ++ "\n")

/-- The call `http.Error(w, msg, code)`: sets the plain-text headers, calls `WriteHeader` and
prints the message and a newline; the result of the print is dropped. -/
def httpError (w : ResponseWriter) (msg : String) (code : Nat) : ResponseWriter :=
  let w1 := { w with header := headerDel w.header "Content-Length" }
  let w2 := w1.SetHeader "Content-Type" "text/plain; charset=utf-8"
  let w3 := w2.SetHeader "X-Content-Type-Options" "nosniff"
  let w4 := w3.WriteHeader code
  (w4.Write (msg ++ "\n")).1

/-- An `http.Handler`: `ServeHTTP(w, r)` as a function of the world and the writer. -/
abbrev Handler := World → ResponseWriter → Request → ResponseWriter × World

/-! ## The handlers and the middleware of main.go -/

/-- The method `Server.healthHandler` (main.go lines 80-94). -/
def healthHandler (env : Env) : Handler := fun world w _r =>
  let w1 := w.SetHeader "Content-Type" "application/json"
  let w2 := w1.WriteHeader StatusOK
  let (now, world1) := timeNow world
  let response : HealthResponse :=
    { Status := "healthy", Timestamp := now, Version := "1.0.0" }
  match Encode env.marshalHealth w2 response with
  | (w3, none) => (w3, world1)
  | (w3, some err) =>
    let world2 := logPrintf world1 ("Error encoding health response: " ++ err.Error)
    (httpError w3 "Internal server error" StatusInternalServerError, world2)

/-- The method `Server.helloHandler` (main.go lines 96-115). -/
def helloHandler (env : Env) : Handler := fun world w _r =>
  let w1 := w.SetHeader "Content-Type" "application/json"
  let w2 := w1.WriteHeader StatusOK
  let (hostname, world1) :=
    match env.Hostname with
    | .ok name => (name, world)
    | .error err => ("unknown", logPrintf world ("Error getting hostname: " ++ err.Error))
  let (now, world2) := timeNow world1
  let response : HelloResponse :=
    { Message := "Hello, World!", Timestamp := now, Hostname := hostname }
  match Encode env.marshalHello w2 response with
  | (w3, none) => (w3, world2)
  | (w3, some err) =>
    let world3 := logPrintf world2 ("Error encoding hello response: " ++ err.Error)
    (httpError w3 "Internal server error" StatusInternalServerError, world3)

/-- The method `Server.loggingMiddleware` (main.go lines 62-78); `time.Since(start)` reads the
clock once more. -/
def loggingMiddleware (env : Env) (next : Handler) : Handler := fun world w r =>
  let (start, world1) := timeNow world
  let (w1, world2) := next world1 w r
  let (now, world3) := timeNow world2
  let elapsed : Duration := (now : Int) - (start : Int)
  (w1, logPrintf world3
    (r.Method ++ " " ++ r.RequestURI ++ " " ++ r.RemoteAddr ++ " " ++ env.formatDuration elapsed))

/-! ## gorilla/mux: the router

The router follows gorilla/mux v1.8: `Router.ServeHTTP` redirects a path that is not
clean, a route whose path matches but whose method does not records
`ErrMethodMismatch`, which is answered with 405, and middlewares run only around a
matched handler. -/

/-- Splits a path at every slash. -/
def splitSlash : List Char → List (List Char)
  | [] => [[]]
  | c :: cs =>
    if c = '/' then [] :: splitSlash cs
    else
      match splitSlash cs with
      | [] => [[c]]
      | seg :: segs => (c :: seg) :: segs

/-- The elements of a rooted path after `path.Clean`: empty elements and `.` are
dropped, `..` removes the element before it (and is dropped at the root).  The
elements kept so far are in `stack`, last one first. -/
def cleanSegments (stack : List (List Char)) : List (List Char) → List (List Char)
  | [] => stack.reverse
  | seg :: rest =>
    if seg = [] ∨ seg = ['.'] then cleanSegments stack rest
    else if seg = ['.', '.'] then cleanSegments stack.tail rest
    else cleanSegments (seg :: stack) rest

/-- Joins path elements, a slash before each. -/
def joinSlash : List (List Char) → List Char
  | [] => []
  | seg :: rest => '/' :: (seg ++ joinSlash rest)

/-- The function `path.Clean` on a rooted path (one that starts with a slash). -/
def pathCleanRooted (p : List Char) : List Char :=
  match joinSlash (cleanSegments [] (splitSlash p)) with
  | [] => ['/']
  | q => q

/-- The function `cleanPath` of gorilla/mux: the empty path becomes the root, a
leading slash is added, the path is cleaned, and a trailing slash is put back. -/
def cleanPath (path : String) : String :=
  match path.data with
  | [] => "/"
  | c :: cs =>
    let p := if c = '/' then c :: cs else '/' :: c :: cs
    let np := pathCleanRooted p
    if p.getLast? = some '/' ∧ np ≠ ['/'] then String.mk (np ++ ['/']) else String.mk np

/-- The two errors a match can record (`ErrMethodMismatch`, `ErrNotFound`). -/
inductive MuxError where
  | ErrMethodMismatch
  | ErrNotFound
  deriving DecidableEq, Repr

/-- A route as `HandleFunc(path, f).Methods(methods...)` builds it: a path matcher
for a literal path (no variables, so the match is equality with `URL.Path`), then a
method matcher, and the handler. -/
structure Route where
  path : String
  methods : List String
  handler : Handler

/-- The router: its routes in registration order and the middlewares given to `Use`. -/
structure Router where
  routes : List Route
  middlewares : List (Handler → Handler)

/-- The part of `mux.RouteMatch` that decides the response. -/
structure RouteMatch where
  Handler : Option Handler
  MatchErr : Option MuxError

/-- The method `Route.Match`: a failing path matcher ends the match at once; a
failing method matcher records `ErrMethodMismatch`; a full match clears an earlier
method mismatch and sets the handler. -/
def Route.Match (rt : Route) (req : Request) (m : RouteMatch) : Bool × RouteMatch :=
  if req.Path ≠ rt.path then
    (false, if m.MatchErr = some .ErrNotFound then { m with MatchErr := none } else m)
  else
    let m1 : RouteMatch :=
      if m.MatchErr = some .ErrMethodMismatch then { m with MatchErr := none } else m
    if req.Method ∉ rt.methods then
      (false, { m1 with MatchErr := some .ErrMethodMismatch })
    else
      (true, { m1 with Handler := some (m1.Handler.getD rt.handler) })

/-- The loop of `Router.Match` over the routes: the first route that matches wins. -/
def matchRoutes (req : Request) : List Route → RouteMatch → Bool × RouteMatch
  | [], m => (false, m)
  | rt :: rest, m =>
    match rt.Match req m with
    | (true, m1) => (true, m1)
    | (false, m1) => matchRoutes req rest m1

/-- The method `Router.Match` with no custom not-found or method-not-allowed
handler: on a match without error the middlewares are wrapped around the handler,
the first one given to `Use` outermost. -/
def Router.Match (router : Router) (req : Request) : Bool × RouteMatch :=
  match matchRoutes req router.routes { Handler := none, MatchErr := none } with
  | (true, m) =>
    if m.MatchErr = none then
      (true, { m with Handler := m.Handler.map (fun h => router.middlewares.foldr (fun mw acc => mw acc) h) })
    else (true, m)
  | (false, m) =>
    if m.MatchErr = some .ErrMethodMismatch then (false, m)
    else (false, { m with MatchErr := some .ErrNotFound })

/-- The handler `http.NotFoundHandler()`. -/
def NotFound : Handler := fun world w _r =>
  (httpError w "404 page not found" StatusNotFound, world)

/-- The handler `methodNotAllowedHandler()` of gorilla/mux: status 405, no body. -/
def methodNotAllowed : Handler := fun world w _r =>
  (w.WriteHeader StatusMethodNotAllowed, world)

/-- The method `Router.ServeHTTP`: a path that is not clean is answered by a
redirect to the clean path (the query is kept; percent-encoding of the location is
left out); otherwise the matched handler runs, or the method-not-allowed handler
after a method mismatch, or the not-found handler. -/
def Router.ServeHTTP (router : Router) : Handler := fun world w req =>
  let p := cleanPath req.Path
  if p ≠ req.Path then
    let loc := if req.RawQuery = "" then p else p ++ "?" ++ req.RawQuery
    ((w.SetHeader "Location" loc).WriteHeader StatusMovedPermanently, world)
  else
    let (ok, m) := router.Match req
    let handler : Option Handler := if ok then m.Handler else none
    match handler with
    | some h => h world w req
    | none =>
      if m.MatchErr = some .ErrMethodMismatch then methodNotAllowed world w req
      else NotFound world w req

/-! ## The server of main.go -/

/-- The fields of `http.Server` that `NewServer` sets; its `Handler` is the router
of the enclosing `Server`. -/
structure HTTPServer where
  Addr : String
  ReadTimeout : Duration
  WriteTimeout : Duration
  IdleTimeout : Duration
  deriving DecidableEq, Repr

/-- The struct type `Server` (main.go lines 16-19). -/
structure Server where
  router : Router
  server : HTTPServer

/-- The method `Server.setupRoutes` (main.go lines 51-60). -/
def Server.setupRoutes (env : Env) (s : Server) : Server :=
  let r1 : Router :=
    { s.router with routes := s.router.routes ++
        [{ path := "/health", methods := ["GET"], handler := healthHandler env }] }
  let r2 : Router :=
    { r1 with routes := r1.routes ++
        [{ path := "/", methods := ["GET"], handler := helloHandler env }] }
  let r3 : Router :=
    { r2 with middlewares := r2.middlewares ++ [loggingMiddleware env] }
  { s with router := r3 }

/-- The function `NewServer` (main.go lines 33-49). -/
def NewServer (env : Env) (port : String) : Server :=
  let router : Router := { routes := [], middlewares := [] }
  let server : Server :=
    { router := router,
      server :=
        { Addr := ":" ++ port,
          ReadTimeout := 15 * Second,
          WriteTimeout := 15 * Second,
          IdleTimeout := 60 * Second } }
  server.setupRoutes env

/-- The method `Server.Start` (main.go lines 117-120); `listenAndServe` is what
`http.Server.ListenAndServe` returns once it stops blocking. -/
def Server.Start (s : Server) (listenAndServe : Option GoError) (world : World) :
    Option GoError × World :=
  (listenAndServe, logPrintf world ("Starting server on port " ++ s.server.Addr))

/-- The method `Server.Shutdown` (main.go lines 122-125); `timeout` is the timeout
of the context and `serverShutdown` what `http.Server.Shutdown` returns for it. -/
def Server.Shutdown (_s : Server) (serverShutdown : Duration → Option GoError)
    (timeout : Duration) (world : World) : Option GoError × World :=
  let world1 := logPrintf world "Shutting down server..."
  (serverShutdown timeout, { world1 with shutdownCalls := world1.shutdownCalls ++ [timeout] })

/-- How a path of execution of `main` ends: it returns, or `log.Fatalf` ends the
process. -/
inductive Outcome where
  | returned
  | fatal
  deriving DecidableEq, Repr

/-- The goroutine of `main` (main.go lines 134-138). -/
def serveGoroutine (s : Server) (listenAndServe : Option GoError) (world : World) :
    Outcome × World :=
  match s.Start listenAndServe world with
  | (some err, world1) =>
    if err ≠ GoError.ErrServerClosed then
      (Outcome.fatal, logPrintf world1 ("Server error: " ++ err.Error))
    else (Outcome.returned, world1)
  | (none, world1) => (Outcome.returned, world1)

/-- The main path of `main` once a signal has arrived on `quit` (main.go lines
145-153). -/
def mainAfterSignal (s : Server) (serverShutdown : Duration → Option GoError)
    (world : World) : Outcome × World :=
  let timeout : Duration := 30 * Second
  match s.Shutdown serverShutdown timeout world with
  | (some err, world1) =>
    let world2 := logPrintf world1 ("Server forced to shutdown: " ++ err.Error)
    (Outcome.returned, logPrintf world2 "Server exited")
  | (none, world1) => (Outcome.returned, logPrintf world1 "Server exited")

/-- The function `getPort` (main.go lines 156-163); `lookupEnv` is the process
environment, and `os.Getenv` returns the empty string for a variable that is not
set. -/
def getPort (lookupEnv : String → Option String) : String :=
  let port := (lookupEnv "PORT").getD ""
  if port = "" then "8080" else port

/-! ## A sample environment

A concrete environment on which the functions above can be evaluated.  Its codec
writes the JSON text of section 6 of the specification, with the field names of the
struct tags; an instant is rendered as its decimal count of nanoseconds (the layout
of RFC 3339 is not modelled), and, as `time.Time.MarshalJSON` does for a year after
9999, marshalling fails from `maxInstant` on. -/

/-- The first instant of the year 10000, in nanoseconds since 1970. -/
def maxInstant : Time := 253402300800000000000

/-- Removes `pre` from the front of `s`, if it is there. -/
def dropFront (pre s : List Char) : Option (List Char) :=
  match pre, s with
  | [], rest => some rest
  | _ :: _, [] => none
  | a :: pre1, b :: rest => if a = b then dropFront pre1 rest else none

/-- Reads up to the next double quote: the characters before it and those after it. -/
def untilQuote : List Char → Option (List Char × List Char)
  | [] => none
  | c :: cs =>
    if c = '"' then some ([], cs)
    else (untilQuote cs).map (fun p => (c :: p.1, p.2))

/-- Reads a decimal number. -/
def readDecimal (acc : Nat) : List Char → Option Nat
  | [] => some acc
  | c :: cs => if c.isDigit then readDecimal (10 * acc + (c.toNat - 48)) cs else none

/-- The text of an object with three string members. -/
def objectText (k1 v1 k2 v2 k3 v3 : String) : String :=
  "\x7b\"" ++ k1 ++ "\":\"" ++ v1 ++ "\",\"" ++ k2 ++ "\":\"" ++ v2 ++ "\",\"" ++ k3 ++
    "\":\"" ++ v3 ++ "\"\x7d"

/-- Reads back the three values of `objectText`; white space may follow the object. -/
def readObject (k1 k2 k3 : String) (text : String) : Option (String × String × String) := do
  let r1 ← dropFront ("\x7b\"" ++ k1 ++ "\":\"").data text.data
  let (v1, r2) ← untilQuote r1
  let r3 ← dropFront (",\"" ++ k2 ++ "\":\"").data r2
  let (v2, r4) ← untilQuote r3
  let r5 ← dropFront (",\"" ++ k3 ++ "\":\"").data r4
  let (v3, r6) ← untilQuote r5
  let r7 ← dropFront ['\x7d'] r6
  if r7.all Char.isWhitespace then some (String.mk v1, String.mk v2, String.mk v3) else none

/-- The sample environment: the codec above, a host named `web-1`. -/
def sampleEnv : Env where
  marshalHealth := fun v =>
    if v.Timestamp < maxInstant then
      .ok (objectText "status" v.Status "timestamp" (Nat.repr v.Timestamp) "version" v.Version)
    else .error (.other "Time.MarshalJSON: year outside of range [0,9999]")
  unmarshalHealth := fun text => do
    let (a, b, c) ← readObject "status" "timestamp" "version" text
    let t ← readDecimal 0 b.data
    some { Status := a, Timestamp := t, Version := c }
  marshalHello := fun v =>
    if v.Timestamp < maxInstant then
      .ok (objectText "message" v.Message "timestamp" (Nat.repr v.Timestamp) "hostname" v.Hostname)
    else .error (.other "Time.MarshalJSON: year outside of range [0,9999]")
  unmarshalHello := fun text => do
    let (a, b, c) ← readObject "message" "timestamp" "hostname" text
    let t ← readDecimal 0 b.data
    some { Message := a, Timestamp := t, Hostname := c }
  Hostname := .ok "web-1"
  formatDuration := fun d => toString d ++ "ns"

/-- The sample environment on a machine whose host name is the word "unknown":
resolution succeeds and returns that name. -/
def unknownHostEnv : Env :=
  { sampleEnv with Hostname := .ok "unknown" }

/-- A world whose clock starts at 1700000000 seconds and advances by a millisecond
at every reading. -/
def sampleWorld : World :=
  { clock := fun n => 1700000000000000000 + 1000000 * n, ticks := 0, log := [],
    shutdownCalls := [] }

/-- A world whose clock has reached the year 10000. -/
def lateWorld : World :=
  { clock := fun n => maxInstant + n, ticks := 0, log := [], shutdownCalls := [] }

/-- A request with the given method and path, no query and an empty body. -/
def sampleRequest (method path : String) : Request :=
  { Method := method, Path := path, RawQuery := "", RequestURI := path,
    RemoteAddr := "192.0.2.1:1234", Header := [], Body := "" }

/-- The handler that `TestLoggingMiddleware` wraps (main_test.go lines 88-93). -/
def testHandler : Handler := fun world w _r =>
  (((w.WriteHeader StatusOK).Write "test").1, world)

/-- Recognises the line that the goroutine of `main` logs before it ends the
process. -/
def isServerErrorLine (line : String) : Bool :=
  "Server error: ".data.isPrefixOf line.data

/-- Recognises the line that `main` logs when `Shutdown` returned an error. -/
def isForcedShutdownLine (line : String) : Bool :=
  "Server forced to shutdown: ".data.isPrefixOf line.data

/-- The lines that `main` logs after the signal, given what `Shutdown` returned. -/
def shutdownLines : Option GoError → List String
  | some err =>
    ["Shutting down server...", "Server forced to shutdown: " ++ err.Error, "Server exited"]
  | none => ["Shutting down server...", "Server exited"]

/-! ## Configuration: `getPort` and `NewServer` -/

/-- C5: `getPort` returns the value of `PORT` whenever it is a non-empty string,
returns "8080" whenever `PORT` is unset or empty, and never returns the empty
string. -/
theorem getPort_spec (lookupEnv : String → Option String) :
    (∀ v : String, lookupEnv "PORT" = some v → v ≠ "" → getPort lookupEnv = v) ∧
    (lookupEnv "PORT" = none ∨ lookupEnv "PORT" = some "" → getPort lookupEnv = "8080") ∧
    getPort lookupEnv ≠ "" := by
  refine ⟨?_, ?_, ?_⟩
  · intro v hv hne
    simp [getPort, hv, hne]
  · rintro (h | h) <;> simp [getPort, h]
  · show (if (lookupEnv "PORT").getD "" = "" then "8080" else (lookupEnv "PORT").getD "") ≠ ""
    by_cases h : (lookupEnv "PORT").getD "" = ""
    · rw [if_pos h]; decide
    · rw [if_neg h]; exact h

/-- C5 at concrete environments: `PORT=3000` gives "3000", an unset `PORT` gives
"8080". -/
theorem getPort_spec_witness :
    getPort (fun k => if k = "PORT" then some "3000" else none) = "3000" ∧
    getPort (fun _ => none) = "8080" :=
  ⟨(getPort_spec (fun k => if k = "PORT" then some "3000" else none)).1 "3000"
      (by decide) (by decide),
   (getPort_spec (fun _ => none)).2.1 (Or.inl rfl)⟩

/-- C6: for every port string `p`, `NewServer p` is a server whose address is
`":" ++ p` with `p` untouched (so "8080" gives ":8080"), and whose read, write and
idle timeouts are 15, 15 and 60 seconds. -/
theorem NewServer_config (env : Env) (port : String) :
    (NewServer env port).server.Addr = ":" ++ port ∧
    (NewServer env "8080").server.Addr = ":8080" ∧
    (NewServer env port).server.ReadTimeout = 15 * Second ∧
    (NewServer env port).server.WriteTimeout = 15 * Second ∧
    (NewServer env port).server.IdleTimeout = 60 * Second ∧
    Second = 1000000000 :=
  ⟨rfl, rfl, rfl, rfl, rfl, rfl⟩

/-! ## The lifecycle: `Start` and the shutdown path of `main` -/

/-- C8, as amended: `Server.Start` logs its start line and returns what the
listen-and-serve call returned, unchanged, so after a requested shutdown it returns
`http.ErrServerClosed` and not nil; it is the goroutine of `main` that treats this
error as a normal end: it ends the process exactly when the error is neither nil nor
`http.ErrServerClosed`, and then, and only then, it logs the error as a
"Server error" line after the start line. -/
theorem Start_returns_listen_result (s : Server) (res : Option GoError) (world : World) :
    s.Start res world
      = (res, { world with log := world.log ++ ["Starting server on port " ++ s.server.Addr] }) ∧
    (s.Start (some GoError.ErrServerClosed) world).1 = some GoError.ErrServerClosed ∧
    ((serveGoroutine s res world).1 = Outcome.fatal ↔
      ∃ err, res = some err ∧ err ≠ GoError.ErrServerClosed) ∧
    (serveGoroutine s (some GoError.ErrServerClosed) world).1 = Outcome.returned ∧
    (∀ err, res = some err → err ≠ GoError.ErrServerClosed →
      serveGoroutine s res world
        = (Outcome.fatal,
           { world with log := world.log ++
              ["Starting server on port " ++ s.server.Addr, "Server error: " ++ err.Error] })) ∧
    (res = none ∨ res = some GoError.ErrServerClosed →
      serveGoroutine s res world
        = (Outcome.returned,
           { world with log := world.log ++ ["Starting server on port " ++ s.server.Addr] })) ∧
    ((∃ line ∈ (serveGoroutine s res world).2.log.drop world.log.length,
        isServerErrorLine line = true) ↔
      (serveGoroutine s res world).1 = Outcome.fatal) := by
  have hfatal : ∀ err, res = some err → err ≠ GoError.ErrServerClosed →
      serveGoroutine s res world
        = (Outcome.fatal,
           { world with log := world.log ++
              ["Starting server on port " ++ s.server.Addr, "Server error: " ++ err.Error] }) := by
    intro err hres hne
    subst hres
    simp [serveGoroutine, Server.Start, logPrintf, hne]
  have hquiet : res = none ∨ res = some GoError.ErrServerClosed →
      serveGoroutine s res world
        = (Outcome.returned,
           { world with log := world.log ++ ["Starting server on port " ++ s.server.Addr] }) := by
    rintro (h | h) <;> subst h <;> simp [serveGoroutine, Server.Start, logPrintf]
  have hstart : ¬ isServerErrorLine ("Starting server on port " ++ s.server.Addr) = true := by
    simp [isServerErrorLine, List.isPrefixOf]
  refine ⟨rfl, rfl, ?_, rfl, hfatal, hquiet, ?_⟩
  · cases res with
    | none => simp [serveGoroutine, Server.Start]
    | some err =>
      by_cases h : err = GoError.ErrServerClosed
      · simp [serveGoroutine, Server.Start, h]
      · simp [serveGoroutine, Server.Start, h]
  · cases res with
    | none =>
      rw [hquiet (Or.inl rfl)]
      simp [hstart]
    | some err =>
      by_cases h : err = GoError.ErrServerClosed
      · subst h
        rw [hquiet (Or.inr rfl)]
        simp [hstart]
      · rw [hfatal err rfl h]
        simp [isServerErrorLine]

/-- C8 fails as stated: when listen-and-serve reports `http.ErrServerClosed`,
`Start` returns that error, not nil. -/
theorem Start_server_closed_not_nil :
    ((NewServer sampleEnv "8080").Start (some GoError.ErrServerClosed) sampleWorld).1
        = some GoError.ErrServerClosed ∧
    ((NewServer sampleEnv "8080").Start (some GoError.ErrServerClosed) sampleWorld).1 ≠ none :=
  ⟨rfl, by simp [Server.Start]⟩

/-- C9: after the signal, `main` calls `Shutdown` exactly once, with a timeout of 30
seconds; whatever `Shutdown` returns, `main` returns (it is never fatal) after
logging "Server exited" as its last line, and it logs a "Server forced to shutdown"
line before that if and only if `Shutdown` returned an error. -/
theorem mainAfterSignal_spec (s : Server) (serverShutdown : Duration → Option GoError)
    (world : World) :
    (mainAfterSignal s serverShutdown world).1 = Outcome.returned ∧
    (mainAfterSignal s serverShutdown world).2.shutdownCalls
      = world.shutdownCalls ++ [30 * Second] ∧
    (30 * Second : Duration) = 30000000000 ∧
    (mainAfterSignal s serverShutdown world).2.log
      = world.log ++ shutdownLines (serverShutdown (30 * Second)) ∧
    (mainAfterSignal s serverShutdown world).2.log.getLast? = some "Server exited" ∧
    ((∃ line ∈ shutdownLines (serverShutdown (30 * Second)), isForcedShutdownLine line = true)
      ↔ serverShutdown (30 * Second) ≠ none) ∧
    (mainAfterSignal s serverShutdown world).2.clock = world.clock ∧
    (mainAfterSignal s serverShutdown world).2.ticks = world.ticks := by
  cases h : serverShutdown (30 * Second) with
  | none =>
    refine ⟨?_, ?_, by decide, ?_, ?_, ?_, ?_, ?_⟩ <;>
      simp [mainAfterSignal, Server.Shutdown, logPrintf, h, shutdownLines]
    decide
  | some err =>
    refine ⟨?_, ?_, by decide, ?_, ?_, ?_, ?_, ?_⟩ <;>
      simp [mainAfterSignal, Server.Shutdown, logPrintf, h, shutdownLines]
    right; left
    simp [isForcedShutdownLine]

/-! ## The middleware -/

/-- C7: for every handler `next` and request `r`, serving `r` through
`loggingMiddleware next` leaves the response writer exactly as `next` itself leaves
it when run on the same writer and request (at the moment the middleware calls it,
that is after the clock was read once), and the log is the log `next` left plus
exactly one line, made of the method, request URI and remote address of `r` and the
elapsed time between the two clock readings; for the handler of the test the status
is 200 and the body is "test". -/
theorem loggingMiddleware_passthrough (env : Env) (next : Handler) (world : World)
    (w : ResponseWriter) (r : Request) :
    (loggingMiddleware env next world w r).1 = (next (timeNow world).2 w r).1 ∧
    (loggingMiddleware env next world w r).2.log
      = (next (timeNow world).2 w r).2.log ++
          [r.Method ++ " " ++ r.RequestURI ++ " " ++ r.RemoteAddr ++ " " ++
            env.formatDuration
              (((timeNow (next (timeNow world).2 w r).2).1 : Int) - ((timeNow world).1 : Int))] ∧
    (loggingMiddleware env testHandler world NewRecorder r).1.Code = 200 ∧
    (loggingMiddleware env testHandler world NewRecorder r).1.Body = "test" ∧
    (loggingMiddleware env testHandler world NewRecorder r).2.log.length
      = world.log.length + 1 :=
  ⟨rfl, rfl, rfl, by show "" ++ "test" = "test"; decide,
    by simp [loggingMiddleware, testHandler, logPrintf, timeNow]⟩

/-! ## The handlers -/

/-- C10: both handlers are independent of the request: on the same clock, hostname
result, codec and initial response writer, any two requests get the same response
(status, headers, body) and leave the same world. -/
theorem handlers_ignore_request (env : Env) (world : World) (w : ResponseWriter)
    (r1 r2 : Request) :
    healthHandler env world w r1 = healthHandler env world w r2 ∧
    helloHandler env world w r1 = helloHandler env world w r2 :=
  ⟨rfl, rfl⟩

/-- Reading a header that was just set gives the value set. -/
theorem headerGet_headerSet (h : List (String × String)) (k v : String) :
    headerGet (headerSet h k v) k = some v := by
  simp [headerGet, headerSet]

/-- C1: for every request, on a fresh response writer (no header written, empty
body) that accepts writes, and with a JSON codec that marshals the response and
decodes its own output, `healthHandler` records status 200, sends the header
`Content-Type: application/json`, and writes a body that decodes to a
`HealthResponse` with status "healthy", version "1.0.0" and timestamp equal to the
clock reading taken inside the call; under a non-decreasing clock that timestamp is
no earlier than any reading taken before the call. -/
theorem healthHandler_ok (env : Env) (world : World) (w : ResponseWriter) (r : Request)
    (text : String)
    (hfresh : w.wroteHeader = false) (hempty : w.Body = "") (haccept : w.writeErr = none)
    (hmarshal : env.marshalHealth
      { Status := "healthy", Timestamp := world.clock world.ticks, Version := "1.0.0" }
        = .ok text)
    (hjson : env.unmarshalHealth (text ++ "\n")
        = some { Status := "healthy", Timestamp := world.clock world.ticks, Version := "1.0.0" }) :
    (healthHandler env world w r).1.Code = 200 ∧
    headerGet (healthHandler env world w r).1.sentHeader "Content-Type"
      = some "application/json" ∧
    (healthHandler env world w r).1.Body = text ++ "\n" ∧
    (∃ v, env.unmarshalHealth (healthHandler env world w r).1.Body = some v ∧
      v.Status = "healthy" ∧ v.Version = "1.0.0" ∧
      v.Timestamp = world.clock world.ticks ∧
      (Monotone world.clock → ∀ i, i ≤ world.ticks → world.clock i ≤ v.Timestamp)) ∧
    (healthHandler env world w r).2.log = world.log := by
  have hout : healthHandler env world w r =
      ({ header := headerSet w.header "Content-Type" "application/json",
         wroteHeader := true, Code := 200,
         sentHeader := headerSet w.header "Content-Type" "application/json",
         Body := text ++ "\n", writeErr := none },
       { world with ticks := world.ticks + 1 }) := by
    simp [healthHandler, Encode, timeNow, hmarshal, ResponseWriter.Write,
      ResponseWriter.WriteHeader, ResponseWriter.SetHeader, hfresh, hempty, haccept, StatusOK]
  rw [hout]
  refine ⟨rfl, headerGet_headerSet _ _ _, rfl, ⟨_, hjson, rfl, rfl, rfl, ?_⟩, rfl⟩
  intro hmono i hi
  exact hmono hi

/-- C1 on the sample environment: a GET of `/health` on a new recorder gives status
200 and the JSON text of a healthy response. -/
theorem healthHandler_ok_witness :
    (healthHandler sampleEnv sampleWorld NewRecorder (sampleRequest "GET" "/health")).1.Code
      = 200 ∧
    (healthHandler sampleEnv sampleWorld NewRecorder (sampleRequest "GET" "/health")).1.Body
      = "\x7b\"status\":\"healthy\",\"timestamp\":\"1700000000000000000\",\"version\":\"1.0.0\"\x7d\n" :=
  have h := healthHandler_ok sampleEnv sampleWorld NewRecorder (sampleRequest "GET" "/health")
    "\x7b\"status\":\"healthy\",\"timestamp\":\"1700000000000000000\",\"version\":\"1.0.0\"\x7d"
    rfl rfl rfl (by rfl) (by decide)
  ⟨h.1, h.2.2.1⟩

/-- C2, as amended: for every request and every outcome of host name resolution, on
a fresh response writer that accepts writes and with a JSON codec that marshals the
response and decodes its own output, `helloHandler` records status 200 and writes a
body that decodes to a `HelloResponse` with message "Hello, World!"; its hostname is
the resolved name when resolution succeeds, whatever it is, and "unknown" whenever
resolution fails, so the hostname is "unknown" exactly when resolution failed or
the host is itself named "unknown"; the handler logs the failure and goes on, and
it logs a line exactly when resolution fails. -/
theorem helloHandler_ok (env : Env) (world : World) (w : ResponseWriter) (r : Request)
    (text : String)
    (hfresh : w.wroteHeader = false) (hempty : w.Body = "") (haccept : w.writeErr = none)
    (hmarshal : env.marshalHello
      { Message := "Hello, World!", Timestamp := world.clock world.ticks,
        Hostname := env.Hostname.toOption.getD "unknown" } = .ok text)
    (hjson : env.unmarshalHello (text ++ "\n")
        = some { Message := "Hello, World!", Timestamp := world.clock world.ticks,
                 Hostname := env.Hostname.toOption.getD "unknown" }) :
    (helloHandler env world w r).1.Code = 200 ∧
    (helloHandler env world w r).1.Body = text ++ "\n" ∧
    (∃ v, env.unmarshalHello (helloHandler env world w r).1.Body = some v ∧
      v.Message = "Hello, World!" ∧
      (∀ name, env.Hostname = .ok name → v.Hostname = name) ∧
      (∀ err, env.Hostname = .error err → v.Hostname = "unknown") ∧
      (v.Hostname = "unknown" ↔
        (∃ err, env.Hostname = .error err) ∨ env.Hostname = .ok "unknown")) ∧
    ((helloHandler env world w r).2.log ≠ world.log ↔ ∃ err, env.Hostname = .error err) ∧
    (∀ err, env.Hostname = .error err →
      (helloHandler env world w r).2.log
        = world.log ++ ["Error getting hostname: " ++ err.Error]) := by
  cases hh : env.Hostname with
  | ok name =>
    rw [hh] at hmarshal hjson
    have hout : helloHandler env world w r =
        ({ header := headerSet w.header "Content-Type" "application/json",
           wroteHeader := true, Code := 200,
           sentHeader := headerSet w.header "Content-Type" "application/json",
           Body := text ++ "\n", writeErr := none },
         { world with ticks := world.ticks + 1 }) := by
      simp [Except.toOption] at hmarshal
      simp [helloHandler, Encode, timeNow, hh, hmarshal, ResponseWriter.Write,
        ResponseWriter.WriteHeader, ResponseWriter.SetHeader, hfresh, hempty, haccept,
        StatusOK]
    rw [hout]
    refine ⟨rfl, rfl, ⟨_, hjson, rfl, ?_, ?_, ?_⟩, ?_, ?_⟩
    · intro n hn; cases hn; rfl
    · intro err he; cases he
    · simp [Except.toOption]
    · simp
    · intro err he; cases he
  | error e =>
    rw [hh] at hmarshal hjson
    have hout : helloHandler env world w r =
        ({ header := headerSet w.header "Content-Type" "application/json",
           wroteHeader := true, Code := 200,
           sentHeader := headerSet w.header "Content-Type" "application/json",
           Body := text ++ "\n", writeErr := none },
         { world with ticks := world.ticks + 1,
                      log := world.log ++ ["Error getting hostname: " ++ e.Error] }) := by
      simp [Except.toOption] at hmarshal
      simp [helloHandler, Encode, timeNow, hh, hmarshal, ResponseWriter.Write, logPrintf,
        ResponseWriter.WriteHeader, ResponseWriter.SetHeader, hfresh, hempty, haccept,
        StatusOK]
    rw [hout]
    refine ⟨rfl, rfl, ⟨_, hjson, rfl, ?_, ?_, ?_⟩, ?_, ?_⟩
    · intro n hn; cases hn
    · intro err _; rfl
    · simp [Except.toOption]
    · simp
    · intro err he; cases he; rfl

/-- C2 on the sample environment, once with the host `web-1` resolved and once with
a failing resolution, where the body carries the hostname "unknown". -/
theorem helloHandler_ok_witness :
    (helloHandler sampleEnv sampleWorld NewRecorder (sampleRequest "GET" "/")).1.Code = 200 ∧
    (helloHandler { sampleEnv with Hostname := .error (.other "no host name") } sampleWorld
      NewRecorder (sampleRequest "GET" "/")).1.Body
      = "\x7b\"message\":\"Hello, World!\",\"timestamp\":\"1700000000000000000\",\"hostname\":\"unknown\"\x7d\n" :=
  ⟨(helloHandler_ok sampleEnv sampleWorld NewRecorder (sampleRequest "GET" "/")
      "\x7b\"message\":\"Hello, World!\",\"timestamp\":\"1700000000000000000\",\"hostname\":\"web-1\"\x7d"
      rfl rfl rfl (by rfl) (by decide)).1,
   (helloHandler_ok { sampleEnv with Hostname := .error (.other "no host name") } sampleWorld
      NewRecorder (sampleRequest "GET" "/")
      "\x7b\"message\":\"Hello, World!\",\"timestamp\":\"1700000000000000000\",\"hostname\":\"unknown\"\x7d"
      rfl rfl rfl (by rfl) (by decide)).2.1⟩

/-- C2 fails as stated: on a machine whose host name is the word "unknown",
resolution succeeds, `helloHandler` answers 200 and the decoded hostname is
"unknown" although resolution returned no error, so the hostname is not "unknown"
exactly when resolution returns an error. -/
theorem hostname_unknown_without_error :
    (helloHandler unknownHostEnv sampleWorld NewRecorder (sampleRequest "GET" "/")).1.Code
      = 200 ∧
    unknownHostEnv.unmarshalHello
        (helloHandler unknownHostEnv sampleWorld NewRecorder (sampleRequest "GET" "/")).1.Body
      = some { Message := "Hello, World!", Timestamp := 1700000000000000000,
               Hostname := "unknown" } ∧
    unknownHostEnv.Hostname = .ok "unknown" ∧
    (¬ ∃ err, unknownHostEnv.Hostname = .error err) ∧
    ¬ (∀ v, unknownHostEnv.unmarshalHello
          (helloHandler unknownHostEnv sampleWorld NewRecorder
            (sampleRequest "GET" "/")).1.Body = some v →
        (v.Hostname = "unknown" ↔ ∃ err, unknownHostEnv.Hostname = .error err)) := by
  have hbody : unknownHostEnv.unmarshalHello
        (helloHandler unknownHostEnv sampleWorld NewRecorder (sampleRequest "GET" "/")).1.Body
      = some { Message := "Hello, World!", Timestamp := 1700000000000000000,
               Hostname := "unknown" } := by decide
  have hno : ¬ ∃ err, unknownHostEnv.Hostname = .error err := by
    rintro ⟨err, h⟩
    cases h
  refine ⟨by decide, hbody, rfl, hno, ?_⟩
  intro h
  exact hno ((h _ hbody).1 rfl)

/-- On a fresh writer `healthHandler` always ends with status 200 and the headers
fixed by its own `WriteHeader(200)`, whatever the codec and the writer do. -/
theorem healthHandler_code (env : Env) (world : World) (w : ResponseWriter) (r : Request)
    (hfresh : w.wroteHeader = false) :
    (healthHandler env world w r).1.Code = 200 ∧
    (healthHandler env world w r).1.sentHeader
      = headerSet w.header "Content-Type" "application/json" := by
  cases hm : env.marshalHealth
      { Status := "healthy", Timestamp := world.clock world.ticks, Version := "1.0.0" } <;>
  cases hw : w.writeErr <;>
  simp [healthHandler, Encode, timeNow, hm, ResponseWriter.Write, httpError, logPrintf,
    ResponseWriter.WriteHeader, ResponseWriter.SetHeader, hfresh, hw, StatusOK]

/-- On a fresh writer `helloHandler` always ends with status 200 and the headers
fixed by its own `WriteHeader(200)`, whatever the codec and the writer do. -/
theorem helloHandler_code (env : Env) (world : World) (w : ResponseWriter) (r : Request)
    (hfresh : w.wroteHeader = false) :
    (helloHandler env world w r).1.Code = 200 ∧
    (helloHandler env world w r).1.sentHeader
      = headerSet w.header "Content-Type" "application/json" := by
  cases hh : env.Hostname <;>
  cases hm : env.marshalHello
      { Message := "Hello, World!", Timestamp := world.clock world.ticks,
        Hostname := env.Hostname.toOption.getD "unknown" } <;>
  cases hw : w.writeErr <;>
  simp [hh, Except.toOption] at hm <;>
  simp [helloHandler, Encode, timeNow, hm, hh, ResponseWriter.Write, httpError, logPrintf,
    ResponseWriter.WriteHeader, ResponseWriter.SetHeader, hfresh, hw, StatusOK]

/-- C3, what the code does: whenever the encoding of the response returns an error
(the marshalling fails, or the writer rejects the write), each handler logs the
failure and returns normally, but the status code is 200, not 500, and the content
type sent is still `application/json`, because `WriteHeader(200)` ran before the
encoding and the `WriteHeader(500)` of `http.Error` is ignored; when it is the
marshalling that failed and the writer accepts writes, the body is the generic
"Internal server error". -/
theorem encode_error_status_stays_200 (env : Env) (world : World) (w : ResponseWriter)
    (r : Request)
    (hfresh : w.wroteHeader = false)
    (hhealth : (∃ err, env.marshalHealth
      { Status := "healthy", Timestamp := world.clock world.ticks, Version := "1.0.0" }
        = .error err) ∨ w.writeErr ≠ none)
    (hhello : (∃ err, env.marshalHello
      { Message := "Hello, World!", Timestamp := world.clock world.ticks,
        Hostname := env.Hostname.toOption.getD "unknown" } = .error err) ∨ w.writeErr ≠ none) :
    ((healthHandler env world w r).1.Code = 200 ∧
      (healthHandler env world w r).1.Code ≠ 500 ∧
      headerGet (healthHandler env world w r).1.sentHeader "Content-Type"
        = some "application/json" ∧
      (∃ err : GoError, (healthHandler env world w r).2.log
        = world.log ++ ["Error encoding health response: " ++ err.Error]) ∧
      (∀ err, env.marshalHealth
          { Status := "healthy", Timestamp := world.clock world.ticks, Version := "1.0.0" }
            = .error err → w.writeErr = none →
        (healthHandler env world w r).1.Body = w.Body ++ "Internal server error\n")) ∧
    ((helloHandler env world w r).1.Code = 200 ∧
      (helloHandler env world w r).1.Code ≠ 500 ∧
      headerGet (helloHandler env world w r).1.sentHeader "Content-Type"
        = some "application/json" ∧
      (∃ err : GoError, (helloHandler env world w r).2.log.getLast?
        = some ("Error encoding hello response: " ++ err.Error)) ∧
      (∀ err, env.marshalHello
          { Message := "Hello, World!", Timestamp := world.clock world.ticks,
            Hostname := env.Hostname.toOption.getD "unknown" } = .error err →
        w.writeErr = none →
        (helloHandler env world w r).1.Body = w.Body ++ "Internal server error\n")) := by
  have hA := healthHandler_code env world w r hfresh
  have hB := helloHandler_code env world w r hfresh
  refine ⟨⟨hA.1, by rw [hA.1]; decide, by rw [hA.2]; exact headerGet_headerSet _ _ _, ?_, ?_⟩,
    ⟨hB.1, by rw [hB.1]; decide, by rw [hB.2]; exact headerGet_headerSet _ _ _, ?_, ?_⟩⟩
  · cases hm : env.marshalHealth
        { Status := "healthy", Timestamp := world.clock world.ticks, Version := "1.0.0" } with
    | error e =>
      refine ⟨e, ?_⟩
      simp [healthHandler, Encode, timeNow, hm, logPrintf]
    | ok text =>
      cases hw : w.writeErr with
      | none => simp [hm, hw] at hhealth
      | some e =>
        refine ⟨e, ?_⟩
        simp [healthHandler, Encode, timeNow, hm, logPrintf, ResponseWriter.Write,
          ResponseWriter.WriteHeader, ResponseWriter.SetHeader, hfresh, hw]
  · intro err hm hw
    simp [healthHandler, Encode, timeNow, hm, ResponseWriter.Write, httpError,
      ResponseWriter.WriteHeader, ResponseWriter.SetHeader, hfresh, hw]
  · cases hh : env.Hostname <;>
    cases hm : env.marshalHello
        { Message := "Hello, World!", Timestamp := world.clock world.ticks,
          Hostname := env.Hostname.toOption.getD "unknown" } <;>
    cases hw : w.writeErr <;>
    simp [hm, hw] at hhello <;>
    simp [hh, Except.toOption] at hm <;>
    simp [helloHandler, Encode, timeNow, hm, hh, logPrintf, ResponseWriter.Write,
      ResponseWriter.WriteHeader, ResponseWriter.SetHeader, hfresh, hw] <;>
    exact ⟨_, rfl⟩
  · intro err hm hw
    cases hh : env.Hostname with
    | ok name =>
      simp [hh, Except.toOption] at hm
      simp [helloHandler, Encode, timeNow, hm, hh, ResponseWriter.Write, httpError,
        ResponseWriter.WriteHeader, ResponseWriter.SetHeader, hfresh, hw]
    | error e =>
      simp [hh, Except.toOption] at hm
      simp [helloHandler, Encode, timeNow, hm, hh, ResponseWriter.Write, httpError, logPrintf,
        ResponseWriter.WriteHeader, ResponseWriter.SetHeader, hfresh, hw]

/-- C3 at failing inputs: with the clock in the year 10000 the timestamp cannot be
marshalled, and a GET on a new recorder ends with status 200, not 500, and the body
"Internal server error"; on a recorder that rejects writes the status is 200 as
well. -/
theorem encode_error_status_stays_200_witness :
    (healthHandler sampleEnv lateWorld NewRecorder (sampleRequest "GET" "/health")).1.Code = 200 ∧
    (healthHandler sampleEnv lateWorld NewRecorder (sampleRequest "GET" "/health")).1.Body
      = "" ++ "Internal server error\n" ∧
    (helloHandler sampleEnv lateWorld NewRecorder (sampleRequest "GET" "/")).1.Code = 200 ∧
    (healthHandler sampleEnv sampleWorld
      { NewRecorder with writeErr := some (.other "write: broken pipe") }
      (sampleRequest "GET" "/health")).1.Code = 200 :=
  have h := encode_error_status_stays_200 sampleEnv lateWorld NewRecorder
    (sampleRequest "GET" "/health") rfl
    (Or.inl ⟨.other "Time.MarshalJSON: year outside of range [0,9999]", by rfl⟩)
    (Or.inl ⟨.other "Time.MarshalJSON: year outside of range [0,9999]", by rfl⟩)
  ⟨h.1.1, h.1.2.2.2.2 _ (by rfl) rfl,
    (encode_error_status_stays_200 sampleEnv lateWorld NewRecorder (sampleRequest "GET" "/") rfl
      (Or.inl ⟨.other "Time.MarshalJSON: year outside of range [0,9999]", by rfl⟩)
      (Or.inl ⟨.other "Time.MarshalJSON: year outside of range [0,9999]", by rfl⟩)).2.1,
    (encode_error_status_stays_200 sampleEnv sampleWorld
      { NewRecorder with writeErr := some (.other "write: broken pipe") }
      (sampleRequest "GET" "/health") rfl (Or.inr (by decide)) (Or.inr (by decide))).1.1⟩

/-! ## The router -/

/-- The router that `setupRoutes` builds is the two routes and the one middleware. -/
theorem NewServer_router (env : Env) (port : String) :
    (NewServer env port).router =
      { routes := [{ path := "/health", methods := ["GET"], handler := healthHandler env },
                   { path := "/", methods := ["GET"], handler := helloHandler env }],
        middlewares := [loggingMiddleware env] } :=
  rfl

/-- The whole dispatch of a router with a GET route for `/health` and one for `/`,
whatever their handlers and middlewares are. -/
theorem serveHTTP_two_routes (h1 h2 : Handler) (mws : List (Handler → Handler))
    (world : World) (w : ResponseWriter) (req : Request) :
    Router.ServeHTTP
        { routes := [{ path := "/health", methods := ["GET"], handler := h1 },
                     { path := "/", methods := ["GET"], handler := h2 }],
          middlewares := mws } world w req =
      if cleanPath req.Path ≠ req.Path then
        ((w.SetHeader "Location"
            (if req.RawQuery = "" then cleanPath req.Path
             else cleanPath req.Path ++ "?" ++ req.RawQuery)).WriteHeader 301, world)
      else if req.Path = "/health" then
        (if req.Method = "GET" then mws.foldr (fun mw acc => mw acc) h1 world w req
         else (w.WriteHeader 405, world))
      else if req.Path = "/" then
        (if req.Method = "GET" then mws.foldr (fun mw acc => mw acc) h2 world w req
         else (w.WriteHeader 405, world))
      else (httpError w "404 page not found" 404, world) := by
  have hc1 : cleanPath "/health" = "/health" := by decide
  have hc2 : cleanPath "/" = "/" := by decide
  by_cases hc : cleanPath req.Path = req.Path
  · by_cases p1 : req.Path = "/health"
    · by_cases hm : req.Method = "GET"
      · simp [Router.ServeHTTP, Router.Match, matchRoutes, Route.Match, hc1, p1, hm]
      · simp [Router.ServeHTTP, Router.Match, matchRoutes, Route.Match, hc1, p1, hm,
          methodNotAllowed, StatusMethodNotAllowed]
    · by_cases p2 : req.Path = "/"
      · by_cases hm : req.Method = "GET"
        · simp [Router.ServeHTTP, Router.Match, matchRoutes, Route.Match, hc2, p2, hm]
        · simp [Router.ServeHTTP, Router.Match, matchRoutes, Route.Match, hc2, p2, hm,
            methodNotAllowed, StatusMethodNotAllowed]
      · simp [Router.ServeHTTP, Router.Match, matchRoutes, Route.Match, hc, p1, p2, NotFound,
          StatusNotFound]
  · simp [Router.ServeHTTP, hc, StatusMovedPermanently]

/-- C4, as amended: the router has exactly the two routes GET `/health` (to
`healthHandler`) and GET `/` (to `helloHandler`), each behind the logging
middleware.  For a request with a clean path that is not one of the two: a path
other than `/health` and `/` gets the not-found response (404); `/health` or `/`
with a method other than GET gets 405 Method Not Allowed with nothing written to
the body; in both cases no handler and no middleware runs: the world is unchanged
(no clock reading, no log line) and the response is the same whatever handlers and
middlewares the two routes have. -/
theorem router_unmatched (env : Env) (port : String) (world : World) (w : ResponseWriter)
    (req : Request)
    (hclean : cleanPath req.Path = req.Path)
    (hmiss : ¬ (req.Method = "GET" ∧ (req.Path = "/health" ∨ req.Path = "/"))) :
    (NewServer env port).router.routes.map (fun rt => (rt.path, rt.methods))
      = [("/health", ["GET"]), ("/", ["GET"])] ∧
    (∀ r : Request, r.Method = "GET" → r.Path = "/health" →
      (NewServer env port).router.ServeHTTP world w r
        = loggingMiddleware env (healthHandler env) world w r) ∧
    (∀ r : Request, r.Method = "GET" → r.Path = "/" →
      (NewServer env port).router.ServeHTTP world w r
        = loggingMiddleware env (helloHandler env) world w r) ∧
    (req.Path ≠ "/health" → req.Path ≠ "/" →
      (NewServer env port).router.ServeHTTP world w req
        = (httpError w "404 page not found" 404, world)) ∧
    (req.Path = "/health" ∨ req.Path = "/" →
      (NewServer env port).router.ServeHTTP world w req = (w.WriteHeader 405, world)) ∧
    ((NewServer env port).router.ServeHTTP world w req).2 = world ∧
    (∀ (h1 h2 : Handler) (mws : List (Handler → Handler)),
      Router.ServeHTTP
          { routes := [{ path := "/health", methods := ["GET"], handler := h1 },
                       { path := "/", methods := ["GET"], handler := h2 }],
            middlewares := mws } world w req
        = (NewServer env port).router.ServeHTTP world w req) := by
  have hc1 : cleanPath "/health" = "/health" := by decide
  have hc2 : cleanPath "/" = "/" := by decide
  have hne : ¬ ("/" : String) = "/health" := by decide
  have key : ∀ (h1 h2 : Handler) (mws : List (Handler → Handler)),
      Router.ServeHTTP
          { routes := [{ path := "/health", methods := ["GET"], handler := h1 },
                       { path := "/", methods := ["GET"], handler := h2 }],
            middlewares := mws } world w req
        = if req.Path = "/health" ∨ req.Path = "/" then (w.WriteHeader 405, world)
          else (httpError w "404 page not found" 404, world) := by
    intro h1 h2 mws
    rw [serveHTTP_two_routes]
    by_cases p1 : req.Path = "/health"
    · have hm : ¬ req.Method = "GET" := fun hm => hmiss ⟨hm, Or.inl p1⟩
      simp [hc1, p1, hm]
    · by_cases p2 : req.Path = "/"
      · have hm : ¬ req.Method = "GET" := fun hm => hmiss ⟨hm, Or.inr p2⟩
        simp [hc2, p2, hm, hne]
      · simp [hclean, p1, p2]
  rw [NewServer_router]
  refine ⟨rfl, ?_, ?_, ?_, ?_, ?_, ?_⟩
  · intro r hm hp
    rw [serveHTTP_two_routes]
    simp [hp, hm, hc1]
  · intro r hm hp
    rw [serveHTTP_two_routes]
    simp [hp, hm, hc2, hne]
  · intro p1 p2
    rw [key]
    simp [p1, p2]
  · intro hp
    rw [key]
    simp [hp]
  · rw [key]
    split <;> rfl
  · intro h1 h2 mws
    rw [key, key]

/-- C4, amended, at concrete requests: POST `/health` gets 405 and GET `/nope` gets
404 with the not-found text. -/
theorem router_unmatched_witness :
    ((NewServer sampleEnv "8080").router.ServeHTTP sampleWorld NewRecorder
        (sampleRequest "POST" "/health")) = (NewRecorder.WriteHeader 405, sampleWorld) ∧
    ((NewServer sampleEnv "8080").router.ServeHTTP sampleWorld NewRecorder
        (sampleRequest "GET" "/nope"))
      = (httpError NewRecorder "404 page not found" 404, sampleWorld) :=
  ⟨(router_unmatched sampleEnv "8080" sampleWorld NewRecorder (sampleRequest "POST" "/health")
      (by decide) (by decide)).2.2.2.2.1 (Or.inl rfl),
   (router_unmatched sampleEnv "8080" sampleWorld NewRecorder (sampleRequest "GET" "/nope")
      (by decide) (by decide)).2.2.2.1 (by decide) (by decide)⟩

/-- C4 fails as stated: a POST to the registered path `/health` is answered with
405 Method Not Allowed and an empty body, not with a not-found response, and a GET
of the path `//health`, which is not registered, is answered with a 301 redirect to
`/health`. -/
theorem router_method_mismatch_is_405 :
    ((NewServer sampleEnv "8080").router.ServeHTTP sampleWorld NewRecorder
        (sampleRequest "POST" "/health")).1.Code = 405 ∧
    ((NewServer sampleEnv "8080").router.ServeHTTP sampleWorld NewRecorder
        (sampleRequest "POST" "/health")).1.Code ≠ 404 ∧
    ((NewServer sampleEnv "8080").router.ServeHTTP sampleWorld NewRecorder
        (sampleRequest "POST" "/health")).1.Body = "" ∧
    ((NewServer sampleEnv "8080").router.ServeHTTP sampleWorld NewRecorder
        (sampleRequest "GET" "//health")).1.Code = 301 ∧
    headerGet ((NewServer sampleEnv "8080").router.ServeHTTP sampleWorld NewRecorder
        (sampleRequest "GET" "//health")).1.sentHeader "Location" = some "/health" := by
  refine ⟨?_, ?_, ?_, ?_, ?_⟩ <;> decide

end HelloService
